import Mathlib

/-!
Verification development for the notebook
`scenarios/similarity/11_exploring_hyperparameters.ipynb`.

The notebook is glue code: it defines a metric function `retrieval_rank`
over an external learner, configures a `ParameterSweeper`, runs the sweep
over two datasets, and post-processes the resulting dataframe.  The
external helper functions (`comparative_set_builder`,
`compute_features_learner`, `positive_image_ranks`, `compute_distances`)
are opaque collaborators: we model them as fields of an environment
record, so the theorems quantify over every possible behaviour of the
external libraries.  The `ParameterSweeper` itself lives in
`utils_cv/classification/parameter_sweeper.py`, which is part of the
repository but not among the provided sources; it is modelled from the
spec where needed.
-/

/-- Exceptions that the modelled Python code can raise. -/
inductive Exc where
  | assertionError
  | indexError
  | keyboardInterrupt
deriving DecidableEq

/-- An opaque neural-network layer (as in `learn.model[1][-2]`). -/
structure Layer where
  lid : Nat
deriving DecidableEq

instance : Inhabited Layer := ⟨⟨0⟩⟩

/-- An opaque validation dataset (`learn.data.valid_ds`). -/
structure ValidDs where
  vid : Nat
deriving DecidableEq

/-- The `data` attribute of a fastai learner, with its validation set. -/
structure LData where
  valid_ds : ValidDs
deriving DecidableEq

/-- A fastai learner: carries `data` and a `model` that is indexed as a
list of lists of layers (`learn.model[1][-2]`). -/
structure Learner where
  data : LData
  model : List (List Layer)
deriving DecidableEq

instance : Inhabited Learner := ⟨⟨⟨0⟩⟩, []⟩

/-- fastai `DatasetType` (only `Valid` is used by the notebook). -/
inductive DatasetType where
  | Train
  | Valid
  | Test
deriving DecidableEq

/-- An opaque comparative set (query image plus reference images), whose
distance state can be updated by `compute_distances`. -/
structure CSet where
  csid : Nat
  dists : List Rat
deriving DecidableEq

/-- The values of the validation-feature dictionary, in insertion order
(`list(valid_features.values())`). -/
abbrev Features := List (List Rat)

/-- Environment of external helper functions called by `retrieval_rank`.
These are opaque collaborators from `utils_cv.similarity`; theorems
quantify over every possible behaviour. -/
structure Env where
  comparative_set_builder : ValidDs → Nat → Nat → List CSet
  compute_features_learner : LData → DatasetType → Learner → Layer → Features
  compute_distances : CSet → Features → CSet
  positive_image_ranks : List CSet → List Nat

/-- Python list indexing `l[i]`: negative indices count from the end,
out-of-range indexing raises `IndexError`. -/
def pyGet {α : Type} (l : List α) (i : Int) : Except Exc α :=
  let j : Int := if i < 0 then i + l.length else i
  if h : 0 ≤ j ∧ j.toNat < l.length then .ok (l.get ⟨j.toNat, h.2⟩)
  else .error .indexError

/-- Model of `np.median` on a list of natural-number ranks: sort
ascending; for odd length take the middle element, for even length take
the arithmetic mean of the two middle elements (as an exact rational). -/
def npMedian (xs : List Nat) : Rat :=
  let s := List.insertionSort (· ≤ ·) xs
  let n := s.length
  if n % 2 = 1 then ((s.getD (n / 2) 0 : Nat) : Rat)
  else (((s.getD (n / 2 - 1) 0 : Nat) : Rat) + ((s.getD (n / 2) 0 : Nat) : Rat)) / 2

/-- The notebook's `retrieval_rank(learn)` metric, embedded statement by
statement: build comparative sets from the validation set with
`num_sets=1000, num_negatives=99`; take the embedding layer
`learn.model[1][-2]`; compute validation features; assert that the first
feature vector has length 512; compute distances on every comparative
set; return the median of the positive-image ranks. -/
def retrieval_rank (env : Env) (learn : Learner) : Except Exc Rat :=
  let data := learn.data
  let comparative_sets := env.comparative_set_builder data.valid_ds 1000 99
  match pyGet learn.model 1 with
  | .error e => .error e
  | .ok outer =>
    match pyGet outer (-2) with
    | .error e => .error e
    | .ok embedding_layer =>
      let valid_features := env.compute_features_learner data DatasetType.Valid learn embedding_layer
      match pyGet valid_features 0 with
      | .error e => .error e
      | .ok first =>
        if first.length = 512 then
          let csets := comparative_sets.map (fun cs => env.compute_distances cs valid_features)
          let ranks := env.positive_image_ranks csets
          .ok (npMedian ranks)
        else .error .assertionError

/-- Modelled from the spec: the parameter dictionary of
`ParameterSweeper` from `utils_cv/classification/parameter_sweeper.py`
(repository code not among the provided sources); field order and
default values are the ones echoed by the notebook's
`sweeper.parameters` output cell. -/
structure SweeperParams where
  learning_rate : List Rat
  epochs : List Nat
  batch_size : List Nat
  im_size : List Nat
  architecture : List String
  transform : List Bool
  dropout : List Rat
  weight_decay : List Rat
  training_schedule : List String
  discriminative_lr : List Bool
  one_cycle_policy : List Bool
deriving DecidableEq

/-- Modelled from the spec: the default parameter values shown by the
notebook's `sweeper.parameters` cell output. -/
def defaultSweeperParams : SweeperParams where
  learning_rate := [1 / 10000]
  epochs := [15]
  batch_size := [16]
  im_size := [299]
  architecture := ["resnet18"]
  transform := [true]
  dropout := [1 / 2]
  weight_decay := [1 / 100]
  training_schedule := ["head_first_then_body"]
  discriminative_lr := [false]
  one_cycle_policy := [true]

/-- Modelled from the spec: `sweeper.update_parameters(...)` replaces the
value lists of the named parameters and keeps the other defaults; the
notebook passes exactly `learning_rate`, `im_size`, `epochs`, `dropout`. -/
def update_parameters (p : SweeperParams) (lrs : List Rat) (ims : List Nat)
    (eps : List Nat) (drops : List Rat) : SweeperParams :=
  { p with learning_rate := lrs, im_size := ims, epochs := eps, dropout := drops }

/-- One permutation of parameters: a single value drawn from each
parameter's value list. -/
structure Permutation where
  learning_rate : Rat
  epochs : Nat
  batch_size : Nat
  im_size : Nat
  architecture : String
  transform : Bool
  dropout : Rat
  weight_decay : Rat
  training_schedule : String
  discriminative_lr : Bool
  one_cycle_policy : Bool
deriving DecidableEq

instance : Inhabited Permutation :=
  ⟨⟨0, 0, 0, 0, "", false, 0, 0, "", false, false⟩⟩

/-- Modelled from the spec: the parameter grid is the cartesian product
of the parameter value lists (one permutation per combination). -/
def permutations (p : SweeperParams) : List Permutation :=
  p.learning_rate.flatMap fun lr =>
  p.epochs.flatMap fun ep =>
  p.batch_size.flatMap fun bs =>
  p.im_size.flatMap fun ims =>
  p.architecture.flatMap fun ar =>
  p.transform.flatMap fun tr =>
  p.dropout.flatMap fun dr =>
  p.weight_decay.flatMap fun wd =>
  p.training_schedule.flatMap fun ts =>
  p.discriminative_lr.flatMap fun dl =>
  p.one_cycle_policy.map fun oc =>
  ⟨lr, ep, bs, ims, ar, tr, dr, wd, ts, dl, oc⟩

/-- The two dataset paths of the notebook: `unzip_url` (external helper)
returns the local path of each unzipped dataset; the paths are opaque
tokens here. -/
def DATA_PATHS : List String := ["fridgeObjects", "fridgeObjectsWatermark"]

/-- Notebook constant `REPS = 3`. -/
def REPS : Nat := 3

/-- Notebook constant `LEARNING_RATES = [1e-3, 1e-4, 1e-5]` (exact
rational values of the Python literals). -/
def LEARNING_RATES : List Rat := [1 / 1000, 1 / 10000, 1 / 100000]

/-- Notebook constant `IM_SIZES = [300, 500]`. -/
def IM_SIZES : List Nat := [300, 500]

/-- Notebook constant `EPOCHS = [16]`. -/
def EPOCHS : List Nat := [16]

/-- Notebook constant `DROPOUTS = [0]`. -/
def DROPOUTS : List Rat := [0]

/-- Environment of the external training framework used by the sweep:
training a model for one permutation on one dataset may fail with any
exception (e.g. a `KeyboardInterrupt`), and each run has an observed
duration. -/
structure TrainEnv where
  train : Permutation → String → Except Exc Learner
  duration : Permutation → String → Rat

/-- One row of the sweep's results dataframe: the multi-index triple
(run number, parameter permutation, dataset) plus the scalar metric
columns `rank` and `duration`. -/
structure ResultRow where
  rep : Nat
  permIdx : Nat
  dsIdx : Nat
  rank : Rat
  duration : Rat
deriving DecidableEq

/-- Monadic map over `Except`: the first exception aborts the whole
loop, exactly as an uncaught Python exception aborts the sweep. -/
def exceptMapM {α β : Type} (f : α → Except Exc β) : List α → Except Exc (List β)
  | [] => .ok []
  | a :: as =>
    match f a with
    | .error e => .error e
    | .ok b =>
      match exceptMapM f as with
      | .error e => .error e
      | .ok bs => .ok (b :: bs)

/-- Index triples (run number, permutation index, dataset index) of the
sweep, in loop order. -/
def indexTriples (reps nperms nds : Nat) : List (Nat × Nat × Nat) :=
  (List.range reps).flatMap fun r =>
    (List.range nperms).flatMap fun p =>
      (List.range nds).map fun d => (r, p, d)

/-- Modelled from the spec: one step of `ParameterSweeper.run` from
`utils_cv/classification/parameter_sweeper.py` (repository code not
among the provided sources): train a model for one permutation on one
dataset and evaluate it with the caller-supplied metric function,
producing one results row; exceptions propagate out uncaught. -/
def sweepStep (tenv : TrainEnv) (perms : List Permutation)
    (datasets : List String) (metricFct : Learner → Except Exc Rat)
    (t : Nat × Nat × Nat) : Except Exc ResultRow :=
  match tenv.train (perms.getD t.2.1 default) (datasets.getD t.2.2 default) with
  | .error e => .error e
  | .ok learn =>
    match metricFct learn with
    | .error e => .error e
    | .ok m =>
      .ok ⟨t.1, t.2.1, t.2.2, m,
           tenv.duration (perms.getD t.2.1 default) (datasets.getD t.2.2 default)⟩

/-- Modelled from the spec: the whole sweep is the in-order sequence of
`sweepStep` calls over all index triples, aborted by the first uncaught
exception. -/
def sweeperRun (tenv : TrainEnv) (perms : List Permutation)
    (datasets : List String) (reps : Nat)
    (metricFct : Learner → Except Exc Rat) : Except Exc (List ResultRow) :=
  exceptMapM (sweepStep tenv perms datasets metricFct)
    (indexTriples reps perms.length datasets.length)

/-- The parameter grid the notebook builds:
`sweeper.update_parameters(learning_rate=LEARNING_RATES,
im_size=IM_SIZES, epochs=EPOCHS, dropout=DROPOUTS)`. -/
def sweeperParamsNotebook : SweeperParams :=
  update_parameters defaultSweeperParams LEARNING_RATES IM_SIZES EPOCHS DROPOUTS

/-- The notebook's sweep cell:
`df = sweeper.run(datasets=DATA_PATHS, reps=REPS, metric_fct=retrieval_rank)`. -/
def notebookRun (env : Env) (tenv : TrainEnv) : Except Exc (List ResultRow) :=
  sweeperRun tenv (permutations sweeperParamsNotebook) DATA_PATHS REPS
    (retrieval_rank env)

/-- The multi-index key of one results row: (run number, permutation,
dataset). -/
def keyOf (r : ResultRow) : Nat × Nat × Nat := (r.rep, r.permIdx, r.dsIdx)

/-- Aggregation `df.mean(level=(1,2))["rank"]`: the mean rank of the group of rows
sharing permutation index `p` and dataset index `d`. -/
def meanLevel12 (rows : List ResultRow) (p d : Nat) : Rat :=
  let g := rows.filter fun r => r.permIdx == p && r.dsIdx == d
  ((g.map fun r => r.rank).sum) / (g.length : Rat)

/-- Aggregation `df.mean(level=(1))["rank"]`: the mean rank of the group of rows
sharing permutation index `p`. -/
def meanLevel1 (rows : List ResultRow) (p : Nat) : Rat :=
  let g := rows.filter fun r => r.permIdx == p
  ((g.map fun r => r.rank).sum) / (g.length : Rat)

/-- The notebook's post-processing of the collected dataframe (performed
only after the sweep returns): the per-permutation mean ranks that the
final cells tabulate, plot and glue. -/
def notebookPostprocess (rows : List ResultRow) : List Rat :=
  (List.range (permutations sweeperParamsNotebook).length).map fun p =>
    meanLevel1 rows p

/-- The notebook end to end: run the sweep, then (only if it returned a
dataframe) post-process and visualize; an exception from the sweep cell
propagates and the later cells never run. -/
def notebookFull (env : Env) (tenv : TrainEnv) : Except Exc (List Rat) :=
  match notebookRun env tenv with
  | .error e => .error e
  | .ok rows => .ok (notebookPostprocess rows)

/-- Concrete layer used by witness environments. -/
def layerA : Layer := ⟨0⟩

/-- Concrete layer used by witness environments. -/
def layerB : Layer := ⟨1⟩

/-- Concrete learner for witnesses: a model whose component 1 is a list
of two layers, so `model[1][-2]` is `layerA`. -/
def learnerW : Learner := ⟨⟨⟨0⟩⟩, [[], [layerA, layerB]]⟩

/-- Concrete environment for witnesses: one comparative set, one
512-dimensional feature vector, positive rank list `[1]`. -/
def envW : Env where
  comparative_set_builder := fun _ _ _ => [⟨0, []⟩]
  compute_features_learner := fun _ _ _ _ => [List.replicate 512 0]
  compute_distances := fun cs _ => cs
  positive_image_ranks := fun _ => [1]

/-- Environment whose feature vectors have length 511 (first entry fails
the assert). -/
def envBad : Env :=
  { envW with compute_features_learner := fun _ _ _ _ => [List.replicate 511 0] }

/-- Environment like `envBad` but with a different rank computation. -/
def envBad2 : Env :=
  { envBad with positive_image_ranks := fun _ => [7] }

/-- Environment whose first feature vector has length 512 but whose
second has length 2 (the assert only inspects the first). -/
def envSecond : Env :=
  { envW with compute_features_learner := fun _ _ _ _ => [List.replicate 512 0, [1, 2]] }

/-- Environment like `envW` whose comparative-set builder answers as
`envW` only at `num_sets = 1000`, `num_negatives = 99` and differently
elsewhere. -/
def envAlt : Env :=
  { envW with comparative_set_builder := fun _ ns nn =>
      if ns = 1000 ∧ nn = 99 then [⟨0, []⟩] else [] }

/-- Environment like `envW` but whose positive-rank list has even
length `[1, 2]`. -/
def envEven : Env :=
  { envW with positive_image_ranks := fun _ => [1, 2] }

/-- Training environment for witnesses: training always succeeds and
returns `learnerW`; durations are zero. -/
def tenvW : TrainEnv where
  train := fun _ _ => .ok learnerW
  duration := fun _ _ => 0

/-- Training environment whose very first training call raises a
`KeyboardInterrupt`. -/
def tenvErr : TrainEnv where
  train := fun _ _ => .error .keyboardInterrupt
  duration := fun _ _ => 0

/-- The concrete results rows produced by the sweep under `envW` and
`tenvW`. -/
def rowsW : List ResultRow :=
  (indexTriples REPS 6 2).map fun t => ⟨t.1, t.2.1, t.2.2, npMedian [1], 0⟩


/-- Helper: the success path of `retrieval_rank`, fully unfolded. -/
theorem retrieval_rank_ok_eq (env : Env) (learn : Learner)
    (outer : List Layer) (emb : Layer) (f0 : List Rat)
    (h1 : pyGet learn.model 1 = .ok outer)
    (h2 : pyGet outer (-2) = .ok emb)
    (h3 : pyGet (env.compute_features_learner learn.data DatasetType.Valid learn emb) 0 = .ok f0)
    (h4 : f0.length = 512) :
    retrieval_rank env learn =
      .ok (npMedian (env.positive_image_ranks
        ((env.comparative_set_builder learn.data.valid_ds 1000 99).map fun cs =>
          env.compute_distances cs
            (env.compute_features_learner learn.data DatasetType.Valid learn emb)))) := by
  unfold retrieval_rank
  simp only [h1, h2, h3]
  simp [h4]

/-- C1: for every learner, `retrieval_rank` returns exactly the median
(`np.median`) of the positive-image ranks produced by
`positive_image_ranks` over the comparative sets built by
`comparative_set_builder` from the learner's validation set, after the
distance computation on each comparative set — the composition
median ∘ positive_image_ranks ∘ distance computation ∘
comparative_set_builder, with no other transformation of the ranks. -/
theorem retrieval_rank_is_median_of_ranks (env : Env) (learn : Learner)
    (outer : List Layer) (emb : Layer) (f0 : List Rat)
    (h1 : pyGet learn.model 1 = .ok outer)
    (h2 : pyGet outer (-2) = .ok emb)
    (h3 : pyGet (env.compute_features_learner learn.data DatasetType.Valid learn emb) 0 = .ok f0)
    (h4 : f0.length = 512) :
    retrieval_rank env learn =
      .ok (npMedian (env.positive_image_ranks
        ((env.comparative_set_builder learn.data.valid_ds 1000 99).map fun cs =>
          env.compute_distances cs
            (env.compute_features_learner learn.data DatasetType.Valid learn emb)))) :=
  retrieval_rank_ok_eq env learn outer emb f0 h1 h2 h3 h4

/-- Witness for C1 at a concrete environment and learner. -/
theorem retrieval_rank_is_median_of_ranks_witness :
    retrieval_rank envW learnerW =
      .ok (npMedian (envW.positive_image_ranks
        ((envW.comparative_set_builder learnerW.data.valid_ds 1000 99).map fun cs =>
          envW.compute_distances cs
            (envW.compute_features_learner learnerW.data DatasetType.Valid learnerW layerA)))) :=
  retrieval_rank_is_median_of_ranks envW learnerW [layerA, layerB] layerA
    (List.replicate 512 0) rfl rfl rfl (List.length_replicate 512 0)

/-- Helper: when the first validation feature vector does not have
length 512, `retrieval_rank` raises `AssertionError`. -/
theorem retrieval_rank_assert_fail (env : Env) (learn : Learner)
    (outer : List Layer) (emb : Layer) (f0 : List Rat)
    (h1 : pyGet learn.model 1 = .ok outer)
    (h2 : pyGet outer (-2) = .ok emb)
    (h3 : pyGet (env.compute_features_learner learn.data DatasetType.Valid learn emb) 0 = .ok f0)
    (h4 : f0.length ≠ 512) :
    retrieval_rank env learn = .error .assertionError := by
  unfold retrieval_rank
  simp only [h1, h2, h3]
  rw [if_neg h4]

/-- C8: `retrieval_rank` asserts, before computing any distances or
ranks, that the first entry of the validation feature dictionary has
length exactly 512: (1) if that first entry's length differs from 512
the function raises `AssertionError` and returns no median; (2) the
outcome then does not depend on the distance or rank computations at
all (any two environments agreeing on set building and feature
extraction give the same result); (3) only the first entry is checked —
whenever it has length 512 the function returns a median, whatever the
other entries look like. -/
theorem retrieval_rank_assert_512 :
    (∀ (env : Env) (learn : Learner) (outer : List Layer) (emb : Layer) (f0 : List Rat),
      pyGet learn.model 1 = .ok outer →
      pyGet outer (-2) = .ok emb →
      pyGet (env.compute_features_learner learn.data DatasetType.Valid learn emb) 0 = .ok f0 →
      f0.length ≠ 512 →
      retrieval_rank env learn = .error .assertionError) ∧
    (∀ (env₁ env₂ : Env) (learn : Learner) (outer : List Layer) (emb : Layer) (f0 : List Rat),
      env₁.comparative_set_builder = env₂.comparative_set_builder →
      env₁.compute_features_learner = env₂.compute_features_learner →
      pyGet learn.model 1 = .ok outer →
      pyGet outer (-2) = .ok emb →
      pyGet (env₁.compute_features_learner learn.data DatasetType.Valid learn emb) 0 = .ok f0 →
      f0.length ≠ 512 →
      retrieval_rank env₁ learn = retrieval_rank env₂ learn) ∧
    (∀ (env : Env) (learn : Learner) (outer : List Layer) (emb : Layer) (f0 : List Rat),
      pyGet learn.model 1 = .ok outer →
      pyGet outer (-2) = .ok emb →
      pyGet (env.compute_features_learner learn.data DatasetType.Valid learn emb) 0 = .ok f0 →
      f0.length = 512 →
      ∃ r, retrieval_rank env learn = .ok r) := by
  refine ⟨fun env learn outer emb f0 h1 h2 h3 h4 =>
      retrieval_rank_assert_fail env learn outer emb f0 h1 h2 h3 h4,
    fun env₁ env₂ learn outer emb f0 hb hf h1 h2 h3 h4 => ?_,
    fun env learn outer emb f0 h1 h2 h3 h4 => ?_⟩
  · rw [retrieval_rank_assert_fail env₁ learn outer emb f0 h1 h2 h3 h4,
      retrieval_rank_assert_fail env₂ learn outer emb f0 h1 h2 (by rw [← hf]; exact h3) h4]
  · exact ⟨_, retrieval_rank_ok_eq env learn outer emb f0 h1 h2 h3 h4⟩

/-- Witness for C8 at concrete environments. -/
theorem retrieval_rank_assert_512_witness :
    retrieval_rank envBad learnerW = .error .assertionError ∧
    retrieval_rank envBad learnerW = retrieval_rank envBad2 learnerW ∧
    (∃ r, retrieval_rank envSecond learnerW = .ok r) :=
  ⟨retrieval_rank_assert_512.1 envBad learnerW [layerA, layerB] layerA
      (List.replicate 511 0) rfl rfl rfl (by rw [List.length_replicate]; decide),
    retrieval_rank_assert_512.2.1 envBad envBad2 learnerW [layerA, layerB] layerA
      (List.replicate 511 0) rfl rfl rfl rfl rfl (by rw [List.length_replicate]; decide),
    retrieval_rank_assert_512.2.2 envSecond learnerW [layerA, layerB] layerA
      (List.replicate 512 0) rfl rfl rfl (List.length_replicate 512 0)⟩

/-- C2: the notebook's end-to-end pipeline, in order: `DATA_PATHS` holds
exactly two datasets; the parameter grid is built by
`sweeper.update_parameters` on the defaults; the sweep trains and
evaluates with `retrieval_rank` passed as the caller-supplied
`metric_fct`, collecting the results into one dataframe; and the
post-processing/visualization consumes that dataframe only afterwards —
it runs exactly when the sweep returned one, on exactly the rows the
sweep collected, and an exception in the sweep reaches the end
unprocessed. -/
theorem notebook_pipeline_order :
    DATA_PATHS.length = 2 ∧
    (∀ (env : Env) (tenv : TrainEnv),
      notebookRun env tenv =
        sweeperRun tenv
          (permutations (update_parameters defaultSweeperParams
            LEARNING_RATES IM_SIZES EPOCHS DROPOUTS))
          DATA_PATHS REPS (retrieval_rank env)) ∧
    (∀ (env : Env) (tenv : TrainEnv) (rows : List ResultRow),
      notebookRun env tenv = .ok rows →
      notebookFull env tenv = .ok (notebookPostprocess rows)) ∧
    (∀ (env : Env) (tenv : TrainEnv) (e : Exc),
      notebookRun env tenv = .error e → notebookFull env tenv = .error e) := by
  refine ⟨rfl, fun env tenv => rfl, fun env tenv rows h => ?_, fun env tenv e h => ?_⟩
  · unfold notebookFull
    rw [h]
  · unfold notebookFull
    rw [h]

set_option maxRecDepth 100000 in
/-- Witness for C2: under concrete environments the sweep succeeds and
the post-processing consumes exactly the collected rows. -/
theorem notebook_pipeline_order_witness :
    notebookFull envW tenvW = .ok (notebookPostprocess rowsW) :=
  notebook_pipeline_order.2.2.1 envW tenvW rowsW (by rfl)

/-- Helper: a successful `exceptMapM` relates inputs and outputs
pointwise. -/
theorem exceptMapM_ok_forall2 {α β : Type} (f : α → Except Exc β) :
    ∀ (xs : List α) (ys : List β), exceptMapM f xs = .ok ys →
      List.Forall₂ (fun a b => f a = .ok b) xs ys := by
  intro xs
  induction xs with
  | nil =>
    intro ys h
    simp only [exceptMapM] at h
    cases h
    exact List.Forall₂.nil
  | cons a as ih =>
    intro ys h
    simp only [exceptMapM] at h
    cases hfa : f a with
    | error e => rw [hfa] at h; cases h
    | ok b =>
      rw [hfa] at h
      cases hrest : exceptMapM f as with
      | error e => rw [hrest] at h; cases h
      | ok bs =>
        rw [hrest] at h
        cases h
        exact List.Forall₂.cons hfa (ih bs hrest)

/-- Helper: a successful `sweepStep` on triple `t` yields a row whose
multi-index key is exactly `t`. -/
theorem sweepStep_ok_key (tenv : TrainEnv) (perms : List Permutation)
    (datasets : List String) (metricFct : Learner → Except Exc Rat)
    (t : Nat × Nat × Nat) (row : ResultRow)
    (h : sweepStep tenv perms datasets metricFct t = .ok row) :
    keyOf row = t := by
  unfold sweepStep at h
  cases htr : tenv.train (perms.getD t.2.1 default) (datasets.getD t.2.2 default) with
  | error e => rw [htr] at h; cases h
  | ok learn =>
    rw [htr] at h
    dsimp only at h
    cases hm : metricFct learn with
    | error e => rw [hm] at h; cases h
    | ok m =>
      rw [hm] at h
      dsimp only at h
      cases h
      rfl

/-- Helper: mapping `keyOf` over rows pointwise keyed by the triples
recovers the triple list. -/
theorem forall2_key_map {xs : List (Nat × Nat × Nat)} {ys : List ResultRow}
    (h : List.Forall₂ (fun t row => keyOf row = t) xs ys) :
    ys.map keyOf = xs := by
  induction h with
  | nil => rfl
  | cons hk _ ih => simp [ih, hk]

/-- Helper: the notebook grid has exactly 6 permutations. -/
theorem permsNotebook_length : (permutations sweeperParamsNotebook).length = 6 := by
  decide

/-- Helper: per-(permutation, dataset) group sizes over the sweep's
index triples. -/
theorem triples_count_pd : ∀ p, p < 6 → ∀ d, d < 2 →
    ((indexTriples 3 6 2).countP fun t => t.2.1 == p && t.2.2 == d) = 3 := by
  decide

/-- Helper: per-permutation group sizes over the sweep's index
triples. -/
theorem triples_count_p : ∀ p, p < 6 →
    ((indexTriples 3 6 2).countP fun t => t.2.1 == p) = 6 := by
  decide

/-- C3: the results of the sweep are keyed by the three-level
multi-index (run number, parameter permutation, dataset) — mapping the
key extractor over the rows gives back exactly the sweep's index
triples; the entries are scalar metrics (each `ResultRow` carries the
`rank` and `duration` columns); and the notebook's aggregations are
well-defined under this index: every (permutation, dataset) group of
`df.mean(level=(1,2))` has exactly `REPS = 3` rows and every
permutation group of `df.mean(level=(1))` has exactly `3 * 2 = 6`
rows — in particular no group is empty. -/
theorem results_multiindex_structure :
    ∀ (env : Env) (tenv : TrainEnv) (rows : List ResultRow),
      notebookRun env tenv = .ok rows →
      rows.map keyOf =
        indexTriples REPS (permutations sweeperParamsNotebook).length DATA_PATHS.length ∧
      (∀ p, p < 6 → ∀ d, d < 2 →
        (rows.filter fun r => r.permIdx == p && r.dsIdx == d).length = REPS) ∧
      (∀ p, p < 6 →
        (rows.filter fun r => r.permIdx == p).length = REPS * DATA_PATHS.length) := by
  intro env tenv rows h
  have hf2 : List.Forall₂
      (fun t row => sweepStep tenv (permutations sweeperParamsNotebook) DATA_PATHS
        (retrieval_rank env) t = .ok row)
      (indexTriples REPS (permutations sweeperParamsNotebook).length DATA_PATHS.length)
      rows :=
    exceptMapM_ok_forall2 _ _ rows h
  have hkeys : List.Forall₂ (fun t row => keyOf row = t)
      (indexTriples REPS (permutations sweeperParamsNotebook).length DATA_PATHS.length)
      rows :=
    hf2.imp (fun _ _ hab => sweepStep_ok_key _ _ _ _ _ _ hab)
  have hmap := forall2_key_map hkeys
  have hmap' : rows.map keyOf = indexTriples 3 6 2 := by
    rw [hmap, permsNotebook_length]
    rfl
  have hcount : ∀ (q : Nat × Nat × Nat → Bool),
      (rows.filter fun r => q (keyOf r)).length = (indexTriples 3 6 2).countP q := by
    intro q
    calc (rows.filter fun r => q (keyOf r)).length
        = rows.countP (fun r => q (keyOf r)) := (List.countP_eq_length_filter _ _).symm
      _ = (rows.map keyOf).countP q := (List.countP_map q keyOf rows).symm
      _ = (indexTriples 3 6 2).countP q := by rw [hmap']
  refine ⟨hmap, fun p hp d hd => ?_, fun p hp => ?_⟩
  · exact (hcount fun t => t.2.1 == p && t.2.2 == d).trans (triples_count_pd p hp d hd)
  · exact (hcount fun t => t.2.1 == p).trans (triples_count_p p hp)

set_option maxRecDepth 100000 in
/-- Witness for C3 at concrete environments whose sweep succeeds. -/
theorem results_multiindex_structure_witness :
    rowsW.map keyOf =
      indexTriples REPS (permutations sweeperParamsNotebook).length DATA_PATHS.length ∧
    (rowsW.filter fun r => r.permIdx == 0 && r.dsIdx == 0).length = REPS :=
  ⟨(results_multiindex_structure envW tenvW rowsW (by rfl)).1,
    (results_multiindex_structure envW tenvW rowsW (by rfl)).2.1 0 (by decide) 0 (by decide)⟩

set_option maxRecDepth 8192 in
/-- C4: the swept hyperparameters are exactly the four scalar lists
`learning_rate = [1e-3, 1e-4, 1e-5]`, `im_size = [300, 500]`,
`epochs = [16]`, `dropout = [0]`; the parameter grid therefore has
exactly 3 × 2 × 1 × 1 = 6 permutations; `REPS = 3` and there are two
datasets; and each permutation is evaluated 3 times on each dataset
(3 index triples per (permutation, dataset) pair in the sweep's loop),
matching the recorded output "Running 1 of 6 permutations. Repeat 1 of
3.". -/
theorem notebook_grid_six_permutations :
    (sweeperParamsNotebook.learning_rate = [1 / 1000, 1 / 10000, 1 / 100000] ∧
     sweeperParamsNotebook.im_size = [300, 500] ∧
     sweeperParamsNotebook.epochs = [16] ∧
     sweeperParamsNotebook.dropout = [0] ∧
     (permutations sweeperParamsNotebook).length =
       LEARNING_RATES.length * IM_SIZES.length * EPOCHS.length * DROPOUTS.length ∧
     (permutations sweeperParamsNotebook).length = 6 ∧
     REPS = 3 ∧ DATA_PATHS.length = 2) ∧
    (∀ p, p < 6 → ∀ d, d < 2 →
      ((indexTriples REPS (permutations sweeperParamsNotebook).length
          DATA_PATHS.length).countP
        fun t => t.2.1 == p && t.2.2 == d) = REPS) := by
  refine ⟨⟨rfl, rfl, rfl, rfl, by decide, permsNotebook_length, rfl, rfl⟩,
    fun p hp d hd => ?_⟩
  rw [permsNotebook_length]
  exact triples_count_pd p hp d hd

/-- Witness for C4 at a concrete (permutation, dataset) pair. -/
theorem notebook_grid_six_permutations_witness :
    ((indexTriples REPS (permutations sweeperParamsNotebook).length
        DATA_PATHS.length).countP
      fun t => t.2.1 == 5 && t.2.2 == 1) = REPS :=
  notebook_grid_six_permutations.2 5 (by decide) 1 (by decide)

/-- Helper: an error on the head aborts `exceptMapM` with that error. -/
theorem exceptMapM_cons_error {α β : Type} (f : α → Except Exc β)
    (t : α) (ts : List α) (e : Exc) (h : f t = .error e) :
    exceptMapM f (t :: ts) = .error e := by
  simp [exceptMapM, h]

/-- Helper: a failed training call makes `sweepStep` fail with the same
exception. -/
theorem sweepStep_error_of_train (tenv : TrainEnv) (perms : List Permutation)
    (datasets : List String) (metricFct : Learner → Except Exc Rat)
    (t : Nat × Nat × Nat) (e : Exc)
    (h : tenv.train (perms.getD t.2.1 default) (datasets.getD t.2.2 default) = .error e) :
    sweepStep tenv perms datasets metricFct t = .error e := by
  unfold sweepStep
  rw [h]

/-- Helper: a failed metric call makes `sweepStep` fail with the same
exception. -/
theorem sweepStep_error_of_metric (tenv : TrainEnv) (perms : List Permutation)
    (datasets : List String) (metricFct : Learner → Except Exc Rat)
    (t : Nat × Nat × Nat) (learn : Learner) (e : Exc)
    (htr : tenv.train (perms.getD t.2.1 default) (datasets.getD t.2.2 default) = .ok learn)
    (hm : metricFct learn = .error e) :
    sweepStep tenv perms datasets metricFct t = .error e := by
  unfold sweepStep
  rw [htr]
  dsimp only
  rw [hm]

/-- Helper: the sweep's index-triple list starts with `(0, 0, 0)`. -/
theorem indexTriples_notebook_cons :
    indexTriples REPS (permutations sweeperParamsNotebook).length DATA_PATHS.length =
      (0, 0, 0) ::
        (indexTriples REPS (permutations sweeperParamsNotebook).length
          DATA_PATHS.length).tail := by
  rw [permsNotebook_length]
  decide

/-- C5: the notebook contains no error-handling path of its own:
neither `retrieval_rank` nor any cell wraps training or evaluation in
try/except, so an exception raised inside `sweeper.run` — whether by
the very first training call (the `KeyboardInterrupt` of the recorded
output) or by the metric evaluation — propagates unhandled out of the
cell as the result of the whole run. -/
theorem sweep_exceptions_propagate :
    (∀ (env : Env) (tenv : TrainEnv) (e : Exc),
      tenv.train ((permutations sweeperParamsNotebook).getD 0 default)
          (DATA_PATHS.getD 0 default) = .error e →
      notebookRun env tenv = .error e) ∧
    (∀ (env : Env) (tenv : TrainEnv) (learn : Learner) (e : Exc),
      tenv.train ((permutations sweeperParamsNotebook).getD 0 default)
          (DATA_PATHS.getD 0 default) = .ok learn →
      retrieval_rank env learn = .error e →
      notebookRun env tenv = .error e) := by
  constructor
  · intro env tenv e htrain
    have h1 : sweepStep tenv (permutations sweeperParamsNotebook) DATA_PATHS
        (retrieval_rank env) (0, 0, 0) = .error e :=
      sweepStep_error_of_train _ _ _ _ _ _ htrain
    unfold notebookRun sweeperRun
    rw [indexTriples_notebook_cons]
    exact exceptMapM_cons_error _ _ _ _ h1
  · intro env tenv learn e htrain hm
    have h1 : sweepStep tenv (permutations sweeperParamsNotebook) DATA_PATHS
        (retrieval_rank env) (0, 0, 0) = .error e :=
      sweepStep_error_of_metric _ _ _ _ _ _ _ htrain hm
    unfold notebookRun sweeperRun
    rw [indexTriples_notebook_cons]
    exact exceptMapM_cons_error _ _ _ _ h1

/-- Witness for C5: a first-call `KeyboardInterrupt` and a failing
metric both reach the cell result unhandled. -/
theorem sweep_exceptions_propagate_witness :
    notebookRun envW tenvErr = .error .keyboardInterrupt ∧
    notebookRun envBad tenvW = .error .assertionError :=
  ⟨sweep_exceptions_propagate.1 envW tenvErr .keyboardInterrupt rfl,
    sweep_exceptions_propagate.2 envBad tenvW learnerW .assertionError rfl
      (retrieval_rank_assert_fail envBad learnerW [layerA, layerB] layerA
        (List.replicate 511 0) rfl rfl rfl
        (by rw [List.length_replicate]; decide))⟩

/-- Helper: Python `l[-2]` on a list of length at least two is its
second-to-last element. -/
theorem pyGet_neg2 {α : Type} [Inhabited α] (l : List α) (h : 2 ≤ l.length) :
    pyGet l (-2) = .ok (l.getD (l.length - 2) default) := by
  have hlen : l.length - 2 < l.length := by omega
  have hc : (0 : Int) ≤ -2 + l.length ∧ ((-2 : Int) + l.length).toNat < l.length :=
    ⟨by omega, by omega⟩
  have hj : (if (-2 : Int) < 0 then (-2 : Int) + l.length else (-2 : Int))
      = (-2 : Int) + l.length := if_pos (by decide)
  have hval : ((-2 : Int) + l.length).toNat = l.length - 2 := by omega
  unfold pyGet
  simp only [hj]
  rw [dif_pos hc]
  rw [List.getD_eq_get l default hlen]
  exact congrArg (fun i => Except.ok (l.get i)) (Fin.ext hval)

/-- C9: the metric parameters of `retrieval_rank` are hard-coded: the
comparative-set builder is consulted only at `num_sets = 1000`,
`num_negatives = 99` on the learner's validation set, and the feature
extractor only at the embedding layer `learn.model[1][-2]` — two
environments that agree there (and on the distance and rank
computations) produce the same metric for every learner, whatever they
do at any other set count, negative count or layer. -/
theorem retrieval_rank_fixed_constants (env₁ env₂ : Env) (learn : Learner)
    (outer : List Layer)
    (h1 : pyGet learn.model 1 = .ok outer)
    (houter : 2 ≤ outer.length)
    (hb : env₁.comparative_set_builder learn.data.valid_ds 1000 99
        = env₂.comparative_set_builder learn.data.valid_ds 1000 99)
    (hf : env₁.compute_features_learner learn.data DatasetType.Valid learn
            (outer.getD (outer.length - 2) default)
        = env₂.compute_features_learner learn.data DatasetType.Valid learn
            (outer.getD (outer.length - 2) default))
    (hd : env₁.compute_distances = env₂.compute_distances)
    (hr : env₁.positive_image_ranks = env₂.positive_image_ranks) :
    retrieval_rank env₁ learn = retrieval_rank env₂ learn := by
  unfold retrieval_rank
  simp only [h1, pyGet_neg2 outer houter]
  rw [hb, hf, hd, hr]

/-- Witness for C9: `envW` and `envAlt` differ at `num_sets = 5`,
`num_negatives = 5` yet the metric agrees, since they coincide at the
hard-coded `(1000, 99)`. -/
theorem retrieval_rank_fixed_constants_witness :
    envW.comparative_set_builder ⟨0⟩ 5 5 ≠ envAlt.comparative_set_builder ⟨0⟩ 5 5 ∧
    retrieval_rank envW learnerW = retrieval_rank envAlt learnerW :=
  ⟨by decide,
    retrieval_rank_fixed_constants envW envAlt learnerW [layerA, layerB]
      rfl (by decide) (by decide) rfl rfl rfl⟩

/-- C10: because `retrieval_rank` returns `np.median` of the integer
rank list: for an odd number of comparative sets the median is the
middle rank, an integer actually attained by some set (it is a member
of the rank list); for an even number it is the arithmetic mean of the
two middle ranks; and it may then be a half-integer attained by no set:
with ranks `[1, 2]` the metric returns `3/2`, which is not among the
ranks. -/
theorem npMedian_parity :
    (∀ xs : List Nat, xs.length % 2 = 1 → ∃ r ∈ xs, npMedian xs = (r : Rat)) ∧
    (∀ xs : List Nat, xs.length % 2 = 0 →
      npMedian xs =
        (((List.insertionSort (· ≤ ·) xs).getD (xs.length / 2 - 1) 0 : Nat) : Rat) / 2 +
        (((List.insertionSort (· ≤ ·) xs).getD (xs.length / 2) 0 : Nat) : Rat) / 2) ∧
    retrieval_rank envEven learnerW = .ok (npMedian [1, 2]) ∧
    npMedian [1, 2] = 3 / 2 ∧
    npMedian [1, 2] ∉ [1, 2].map (fun n : Nat => (n : Rat)) := by
  refine ⟨fun xs hodd => ?_, fun xs heven => ?_, ?_, ?_, ?_⟩
  · have hlen : (List.insertionSort (· ≤ ·) xs).length = xs.length :=
      List.length_insertionSort (· ≤ ·) xs
    have hlt : xs.length / 2 < xs.length := by omega
    have hlt' : xs.length / 2 < (List.insertionSort (· ≤ ·) xs).length := by
      rw [hlen]
      exact hlt
    refine ⟨(List.insertionSort (· ≤ ·) xs).getD (xs.length / 2) 0, ?_, ?_⟩
    · rw [List.getD_eq_getElem _ _ hlt']
      exact (List.perm_insertionSort (· ≤ ·) xs).mem_iff.mp (List.getElem_mem hlt')
    · simp only [npMedian]
      rw [hlen, if_pos hodd]
  · simp only [npMedian]
    rw [List.length_insertionSort, if_neg (by omega : ¬ xs.length % 2 = 1)]
    ring
  · exact retrieval_rank_ok_eq envEven learnerW [layerA, layerB] layerA
      (List.replicate 512 0) rfl rfl rfl (List.length_replicate 512 0)
  · norm_num [npMedian, List.insertionSort, List.orderedInsert]
  · norm_num [npMedian, List.insertionSort, List.orderedInsert]

/-- Witness for C10: the odd and even cases applied at `[5]` and
`[1, 2]`. -/
theorem npMedian_parity_witness :
    (∃ r ∈ ([5] : List Nat), npMedian [5] = (r : Rat)) ∧
    npMedian [1, 2] =
      (((List.insertionSort (· ≤ ·) [1, 2]).getD (([1, 2] : List Nat).length / 2 - 1) 0 : Nat) : Rat) / 2 +
      (((List.insertionSort (· ≤ ·) [1, 2]).getD (([1, 2] : List Nat).length / 2) 0 : Nat) : Rat) / 2 :=
  ⟨npMedian_parity.1 [5] (by decide), npMedian_parity.2.1 [1, 2] (by decide)⟩
